import Mathlib

/-!
Shallow embedding of the TrailBase Python client SDK
(src/client/trailbase-py/trailbase/__init__.py), together with theorems
settling the specification claims about token handling, header derivation,
the refresh-before-use protocol and the record CRUD endpoints.
-/

set_option maxHeartbeats 1000000

/-- JSON values as produced by Python's json machinery / httpx
`response.json()`.  Objects are association lists with unique keys (Python
dicts, in insertion order).  Floating point payloads are not modelled: no
code path under verification produces or consumes one. -/
inductive Json where
  | str (s : String)
  | num (n : Int)
  | bool (b : Bool)
  | null
  | arr (elems : List Json)
  | obj (fields : List (String × Json))

mutual

/-- Structural equality of JSON values (Python `==` on everything except
dicts, where Python ignores key order; key-order-insensitive dict
comparison is provided separately by `Json.pyEq` for the flat objects the
token encoding produces). -/
def Json.beq : Json → Json → Bool
  | .str a, .str b => a == b
  | .num a, .num b => a == b
  | .bool a, .bool b => a == b
  | .null, .null => true
  | .arr as, .arr bs => Json.beqList as bs
  | .obj as, .obj bs => Json.beqFields as bs
  | _, _ => false

/-- Pointwise `Json.beq` on lists. -/
def Json.beqList : List Json → List Json → Bool
  | [], [] => true
  | a :: as, b :: bs => Json.beq a b && Json.beqList as bs
  | _, _ => false

/-- Pointwise `Json.beq` on association lists (same key order). -/
def Json.beqFields : List (String × Json) → List (String × Json) → Bool
  | [], [] => true
  | (k, v) :: as, (l, w) :: bs => k == l && Json.beq v w && Json.beqFields as bs
  | _, _ => false

end

/-- The Python exceptions that the modelled code paths can raise.
`keyError` models `dict[k]` on a missing key; `typeError` models indexing a
non-dict; `assertionError` models a failing `assert`; `valueError` models
tuple unpacking of a list of the wrong length; `decodeError` models
`jwt.exceptions.DecodeError` raised by `jwt.decode`; `transportError`
models an exception raised by the `httpx` transport; `requestError status`
models the `raise Exception(f"{response}")` in create/update/delete. -/
inductive PyErr where
  | keyError (key : String)
  | typeError
  | assertionError
  | valueError
  | decodeError
  | transportError
  | requestError (status : Nat)
  deriving DecidableEq

/-- `json[key]` on a Python value expected to be a dict: the value if the
key is present, `KeyError` if absent, `TypeError` when not indexable. -/
def Json.get (j : Json) (key : String) : Except PyErr Json :=
  match j with
  | .obj fields =>
    match fields.lookup key with
    | some v => .ok v
    | none => .error (.keyError key)
  | _ => .error .typeError

/-- `assert isinstance(x, str)` followed by using `x` as a string. -/
def Json.asStr (j : Json) : Except PyErr String :=
  match j with
  | .str s => .ok s
  | _ => .error .assertionError

/-- `assert isinstance(x, int)` followed by using `x` as an integer.
Python `bool` is a subclass of `int`, so booleans pass the assert. -/
def Json.asInt (j : Json) : Except PyErr Int :=
  match j with
  | .num n => .ok n
  | .bool b => .ok (if b then 1 else 0)
  | _ => .error .assertionError

/-- `True` exactly for a successful `Except` result. -/
def exceptIsOk : Except PyErr α → Bool
  | .ok _ => true
  | .error _ => false

/-- Source class `Tokens` (the spec's TokenPair): access token plus
optional refresh and CSRF tokens. -/
structure Tokens where
  auth : String
  refresh : Option String
  csrf : Option String
  deriving DecidableEq

/-- Source class `JwtToken` (the spec's DecodedClaims). -/
structure JwtToken where
  sub : String
  iat : Int
  exp : Int
  email : String
  csrfToken : String
  deriving DecidableEq

/-- Source class `RecordId`: a string or integer record identifier. -/
inductive RecordId where
  | str (s : String)
  | int (n : Int)
  deriving DecidableEq

/-- `RecordId.__repr__`: the bare id value, stringified. -/
def RecordId.repr : RecordId → String
  | .str s => s
  | .int n => toString n

/-- `Tokens.fromJson`: reads the three fixed fields, asserting each is a
string; a missing field raises `KeyError`, a non-string (including
`None`/null) raises `AssertionError`. -/
def Tokens.fromJson (json : Json) : Except PyErr Tokens := do
  let auth ← json.get "auth_token"
  let auth ← auth.asStr
  let refresh ← json.get "refresh_token"
  let refresh ← refresh.asStr
  let csrf ← json.get "csrf_token"
  let csrf ← csrf.asStr
  pure ⟨auth, some refresh, some csrf⟩

/-- Python `str | None` rendered as a JSON value. -/
def Json.ofOptStr : Option String → Json
  | some s => .str s
  | none => .null

/-- `Tokens.toJson`: a dict with the three fixed field names, in the
source's insertion order. -/
def Tokens.toJson (t : Tokens) : Json :=
  .obj [("auth_token", .str t.auth),
        ("refresh_token", Json.ofOptStr t.refresh),
        ("csrf_token", Json.ofOptStr t.csrf)]

/-- `JwtToken.fromJson`: reads the claim fields with `isinstance`
asserts, in source order. -/
def JwtToken.fromJson (json : Json) : Except PyErr JwtToken := do
  let sub ← json.get "sub"
  let sub ← sub.asStr
  let iat ← json.get "iat"
  let iat ← iat.asInt
  let exp ← json.get "exp"
  let exp ← exp.asInt
  let email ← json.get "email"
  let email ← email.asStr
  let csrfToken ← json.get "csrf_token"
  let csrfToken ← csrfToken.asStr
  pure ⟨sub, iat, exp, email, csrfToken⟩

/-- Model of PyJWT `jwt.decode(token, algorithms=["EdDSA"],
options={"verify_signature": False})`: it returns the decoded payload
object, or raises (`DecodeError` for a malformed/opaque token).  PyJWT
never returns `None`, and rejects non-object payloads, so a `JwtDecode`
value is any function from token strings to payload-or-exception. -/
abbrev JwtDecode := String → Except PyErr Json

/-- Source class `TokenState` (the spec's AuthState): the optional
(tokens, decoded claims) pair and the derived request headers. -/
structure TokenState where
  state : Option (Tokens × JwtToken)
  headers : List (String × String)
  deriving DecidableEq

/-- `TokenState.buildHeaders`: Content-Type always; when tokens are
present additionally Authorization, and Refresh-Token / CSRF-Token for
each optional field that is present (dict insertion order as in the
source). -/
def TokenState.buildHeaders (tokens : Option Tokens) : List (String × String) :=
  [("Content-Type", "application/json")] ++
    (match tokens with
     | none => []
     | some t =>
       [("Authorization", "Bearer " ++ t.auth)] ++
         (match t.refresh with
          | some r => [("Refresh-Token", r)]
          | none => []) ++
         (match t.csrf with
          | some c => [("CSRF-Token", c)]
          | none => []))

/-- `TokenState.build`: decodes the access token when tokens are present
(the decode exception, if any, propagates — the source does not catch
it), then checks `decoded == None or tokens == None`; `jwt.decode` never
returns `None`, so `decoded` is `none` exactly when `tokens` is. -/
def TokenState.build (jd : JwtDecode) (tokens : Option Tokens) :
    Except PyErr TokenState := do
  let decoded : Option Json ←
    match tokens with
    | some t => (jd t.auth).map some
    | none => pure none
  match decoded, tokens with
  | some d, some t => do
    let claims ← JwtToken.fromJson d
    pure ⟨some (t, claims), TokenState.buildHeaders tokens⟩
  | _, _ => pure ⟨none, TokenState.buildHeaders tokens⟩

/-- One HTTP request as issued by `ThinClient.fetch`: method, relative
path, the headers taken from the token state, optional JSON body, query
parameters. -/
structure Request where
  method : String
  path : String
  headers : List (String × String)
  data : Option Json
  queryParams : List (String × String)

/-- An HTTP response: status code and the value `response.json()`
parses to. -/
structure Response where
  status : Nat
  body : Json

/-- The httpx transport, as an oracle: maps each request to a response or
to a raised exception (network failure and the like). -/
abbrev Transport := Request → Except PyErr Response

/-- Python `path.startswith("/")`. -/
def startsWithSlash (s : String) : Bool :=
  match s.data with
  | [] => false
  | c :: _ => c = '/'

/-- `ThinClient.fetch`: asserts the path is relative, then issues exactly
one HTTP request carrying the token state's headers.  The second
component is the trace of requests actually handed to the transport. -/
def ThinClient.fetch (tr : Transport) (ts : TokenState) (path method : String)
    (data : Option Json) (queryParams : List (String × String)) :
    Except PyErr Response × List Request :=
  if startsWithSlash path then (.error .assertionError, [])
  else
    let req : Request := ⟨method, path, ts.headers, data, queryParams⟩
    (tr req, [req])

/-- `Client._authApi`. -/
def authApiPrefix : String := "api/auth/v1"

/-- `RecordApi._recordApi`. -/
def recordApiPrefix : String := "api/records/v1"

namespace Client

/-- `Client.tokens`: the current tokens, when the state holds a decoded
pair. -/
def tokens (ts : TokenState) : Option Tokens :=
  match ts.state with
  | some st => some st.1
  | none => none

/-- The condition under which `Client._updateTokens` logs the
"Token expired" warning. -/
def staleCondition (ts : TokenState) (now : Int) : Bool :=
  match ts.state with
  | some st => decide (st.2.exp < now)
  | none => false

/-- `Client._updateTokens`: rebuilds the token state and installs it (the
build exception, if any, propagates).  The boolean records whether the
"Token expired" warning was logged; logging never raises. -/
def updateTokens (jd : JwtDecode) (now : Int) (tokens : Option Tokens) :
    Except PyErr (TokenState × Bool) := do
  let state ← TokenState.build jd tokens
  pure (state, staleCondition state now)

/-- `Client._shouldRefresh`: when a decoded state exists and its expiry
is within 60 seconds of `now`, returns `state[0].refresh` — a Python
`str | None` whose `None` case is indistinguishable from the no-refresh
`return None`. -/
def shouldRefresh (now : Int) (ts : TokenState) : Option String :=
  match ts.state with
  | some st => if st.2.exp - 60 < now then st.1.refresh else none
  | none => none

/-- The refresh-endpoint request issued by `Client._refreshTokensImpl`,
authorised with the current (pre-refresh) state's headers. -/
def refreshRequest (ts : TokenState) (refreshToken : String) : Request :=
  ⟨"POST", authApiPrefix ++ "/refresh", ts.headers,
    some (.obj [("refresh_token", .str refreshToken)]), []⟩

/-- `Client._refreshTokensImpl`: POSTs the refresh token, then builds a
new state from `Tokens(json["auth_token"], refreshToken,
json["csrf_token"])` — the refresh token is reused, only auth and csrf
come from the response.  The source performs no `isinstance` check on the
two response fields; a non-string auth value would subsequently raise
inside `jwt.decode`, which the model folds into a failure at extraction
time. -/
def refreshTokensImpl (jd : JwtDecode) (tr : Transport) (ts : TokenState)
    (refreshToken : String) : Except PyErr TokenState × List Request :=
  match tr (refreshRequest ts refreshToken) with
  | .error e => (.error e, [refreshRequest ts refreshToken])
  | .ok response =>
    let result : Except PyErr TokenState := do
      let auth ← response.body.get "auth_token"
      let auth ← auth.asStr
      let csrf ← response.body.get "csrf_token"
      let csrf ← csrf.asStr
      TokenState.build jd (some ⟨auth, some refreshToken, some csrf⟩)
    (result, [refreshRequest ts refreshToken])

/-- `Client.fetch`: evaluate `_shouldRefresh`; when it yields a refresh
token, run `_refreshTokensImpl` and install its state (an exception from
it propagates and leaves the state unchanged); then issue the primary
request through `ThinClient.fetch` with the possibly-refreshed state's
headers.  Returns the state the client holds afterwards, the primary
response (or the exception raised), and the trace of issued requests. -/
def fetch (jd : JwtDecode) (tr : Transport) (now : Int) (ts : TokenState)
    (path method : String) (data : Option Json)
    (queryParams : List (String × String)) :
    TokenState × Except PyErr Response × List Request :=
  match shouldRefresh now ts with
  | some refreshToken =>
    match refreshTokensImpl jd tr ts refreshToken with
    | (.error e, log) => (ts, .error e, log)
    | (.ok ts2, log) =>
      let r := ThinClient.fetch tr ts2 path method data queryParams
      (ts2, r.1, log ++ r.2)
  | none =>
    let r := ThinClient.fetch tr ts path method data queryParams
    (ts, r.1, r.2)

/-- `Client.logout`: read the current refresh token; POST it to the
logout endpoint (or GET with no body when absent) through `Client.fetch`;
the bare `except: pass` swallows any exception from that call (its result
is discarded, though the requests it issued were sent); finally
`_updateTokens(None)` runs unconditionally. -/
def logout (jd : JwtDecode) (tr : Transport) (now : Int) (ts : TokenState) :
    Except PyErr (TokenState × Bool) × List Request :=
  let refreshToken : Option String :=
    match ts.state with
    | some st => st.1.refresh
    | none => none
  let attempt :=
    match refreshToken with
    | some rt =>
      fetch jd tr now ts (authApiPrefix ++ "/logout") "POST"
        (some (.obj [("refresh_token", .str rt)])) []
    | none => fetch jd tr now ts (authApiPrefix ++ "/logout") "GET" none []
  (updateTokens jd now none, attempt.2.2)

end Client

/-- `RecordId.fromJson`: `json["id"]` with
`assert isinstance(id, str) or isinstance(id, int)`; a Python bool passes
the assert because `bool` is an `int` subclass. -/
def RecordId.fromJson (json : Json) : Except PyErr RecordId := do
  let id ← json.get "id"
  match id with
  | .str s => pure (.str s)
  | .num n => pure (.int n)
  | .bool b => pure (.int (if b then 1 else 0))
  | _ => .error .assertionError

/-- Python dict assignment `params[k] = v`: replaces the value in place
when the key exists, otherwise appends. -/
def dictInsert (d : List (String × String)) (k v : String) :
    List (String × String) :=
  if d.any (fun kv => kv.1 == k) then
    d.map (fun kv => if kv.1 == k then (k, v) else kv)
  else d ++ [(k, v)]

/-- Splits a character list at the first occurrence of the separator, if
any. -/
def splitAtFirst (sep : Char) : List Char → Option (List Char × List Char)
  | [] => none
  | c :: cs =>
    if c = sep then some ([], cs)
    else
      match splitAtFirst sep cs with
      | some (a, b) => some (c :: a, b)
      | none => none

/-- Python `s.split("=", 1)`: a two-element list split at the first `=`
when one occurs, otherwise the one-element list `[s]`. -/
def splitEq1 (s : String) : List String :=
  match splitAtFirst '=' s.toList with
  | some (a, b) => [String.mk a, String.mk b]
  | none => [s]

namespace RecordApi

/-- The filter loop of `RecordApi.list`: for each filter,
`(nameOp, value) = filter.split("=", 1)` — unpacking the one-element list
produced by a filter with no `=` raises `ValueError` before any request
is issued.  (The source's subsequent `if value == None` guard can never
fire: `split` returns strings.)  Well-formed filters are stored with
`params[nameOp] = value`. -/
def parseFilters (filters : List String)
    (params : List (String × String)) :
    Except PyErr (List (String × String)) :=
  match filters with
  | [] => pure params
  | f :: rest =>
    match splitEq1 f with
    | [nameOp, value] => parseFilters rest (dictInsert params nameOp value)
    | _ => .error .valueError

/-- `RecordApi.list`: builds the `cursor`, `limit`, `order` query
parameters, validates/splits the filters (failing fast before any HTTP
call), then GETs the collection through `Client.fetch` and returns
`response.json()` without inspecting the status code. -/
def list (jd : JwtDecode) (tr : Transport) (now : Int) (name : String)
    (ts : TokenState) (order : Option (List String))
    (filters : Option (List String)) (cursor : Option String)
    (limit : Option Int) :
    TokenState × Except PyErr Json × List Request :=
  let params : List (String × String) := []
  let params := match cursor with
    | some c => dictInsert params "cursor" c
    | none => params
  let params := match limit with
    | some l => dictInsert params "limit" (toString l)
    | none => params
  let params := match order with
    | some o => dictInsert params "order" (String.intercalate "," o)
    | none => params
  match parseFilters (match filters with | some fs => fs | none => []) params with
  | .error e => (ts, .error e, [])
  | .ok params =>
    let r := Client.fetch jd tr now ts (recordApiPrefix ++ "/" ++ name)
      "GET" none params
    (r.1, r.2.1.map (fun response => response.body), r.2.2)

/-- `RecordApi.create`: POST the record; `raise` when
`response.status_code > 200`, otherwise parse the body into a
`RecordId`. -/
def create (jd : JwtDecode) (tr : Transport) (now : Int) (name : String)
    (ts : TokenState) (record : Json) :
    TokenState × Except PyErr RecordId × List Request :=
  let r := Client.fetch jd tr now ts (recordApiPrefix ++ "/" ++ name)
    "POST" (some record) []
  match r.2.1 with
  | .error e => (r.1, .error e, r.2.2)
  | .ok response =>
    if response.status > 200 then
      (r.1, .error (.requestError response.status), r.2.2)
    else
      (r.1, RecordId.fromJson response.body, r.2.2)

/-- `RecordApi.update`: PATCH the record at its id; `raise` when
`response.status_code > 200`, otherwise return `None`. -/
def update (jd : JwtDecode) (tr : Transport) (now : Int) (name : String)
    (ts : TokenState) (recordId : RecordId) (record : Json) :
    TokenState × Except PyErr Unit × List Request :=
  let r := Client.fetch jd tr now ts
    (recordApiPrefix ++ "/" ++ name ++ "/" ++ recordId.repr)
    "PATCH" (some record) []
  match r.2.1 with
  | .error e => (r.1, .error e, r.2.2)
  | .ok response =>
    if response.status > 200 then
      (r.1, .error (.requestError response.status), r.2.2)
    else
      (r.1, .ok (), r.2.2)

/-- `RecordApi.delete`: DELETE the record at its id; `raise` when
`response.status_code > 200`, otherwise return `None`. -/
def delete (jd : JwtDecode) (tr : Transport) (now : Int) (name : String)
    (ts : TokenState) (recordId : RecordId) :
    TokenState × Except PyErr Unit × List Request :=
  let r := Client.fetch jd tr now ts
    (recordApiPrefix ++ "/" ++ name ++ "/" ++ recordId.repr)
    "DELETE" none []
  match r.2.1 with
  | .error e => (r.1, .error e, r.2.2)
  | .ok response =>
    if response.status > 200 then
      (r.1, .error (.requestError response.status), r.2.2)
    else
      (r.1, .ok (), r.2.2)

end RecordApi

/-- Python `==` between JSON values where dicts compare by key set and
per-key values, ignoring key order.  Values inside a dict are compared
with `Json.beq`; this coincides with Python equality whenever the values
are not themselves dicts, which covers the flat token objects. -/
def Json.pyEq (a b : Json) : Bool :=
  match a, b with
  | .obj fs, .obj gs =>
    fs.length == gs.length &&
    fs.all (fun kv =>
      match gs.lookup kv.1 with
      | some v => Json.beq v kv.2
      | none => false) &&
    gs.all (fun kv =>
      match fs.lookup kv.1 with
      | some v => Json.beq v kv.2
      | none => false)
  | a, b => Json.beq a b

/-- `True` on an optional JSON value holding a string. -/
def isStrVal : Option Json → Bool
  | some (.str _) => true
  | _ => false

/-- A well-formed token JSON object in the sense of the round-trip
claim: a dict whose keys are exactly `auth_token`, `refresh_token`,
`csrf_token` — in any order, without duplicates — each with a string
value. -/
def tokensWellFormed (j : Json) : Bool :=
  match j with
  | .obj fields =>
    decide ((fields.map Prod.fst).Perm
      ["auth_token", "refresh_token", "csrf_token"]) &&
    isStrVal (fields.lookup "auth_token") &&
    isStrVal (fields.lookup "refresh_token") &&
    isStrVal (fields.lookup "csrf_token")
  | _ => false

/-! ### Concrete fixtures used by witnesses and counterexamples -/

/-- A decodable JWT payload whose claims expire at epoch second 100. -/
def payloadA : Json :=
  .obj [("sub", .str "user1"), ("iat", .num 0), ("exp", .num 100),
        ("email", .str "u1@example.com"), ("csrf_token", .str "csrfA")]

/-- The claims `payloadA` parses to. -/
def claimsA : JwtToken := ⟨"user1", 0, 100, "u1@example.com", "csrfA"⟩

/-- A decodable JWT payload whose claims expire at epoch second 9000. -/
def payloadB : Json :=
  .obj [("sub", .str "user1"), ("iat", .num 900), ("exp", .num 9000),
        ("email", .str "u1@example.com"), ("csrf_token", .str "csrfB")]

/-- The claims `payloadB` parses to. -/
def claimsB : JwtToken := ⟨"user1", 900, 9000, "u1@example.com", "csrfB"⟩

/-- A concrete decode oracle: `tokA` and `tokB` decode to `payloadA` and
`payloadB`; every other string raises `DecodeError`. -/
def jdFix : JwtDecode := fun s =>
  if s = "tokA" then .ok payloadA
  else if s = "tokB" then .ok payloadB
  else .error .decodeError

/-- A token pair holding only an access token — no refresh token. -/
def tokNoRefresh : Tokens := ⟨"tokA", none, none⟩

/-- The token state `TokenState.build jdFix (some tokNoRefresh)`
produces. -/
def tsNoRefresh : TokenState :=
  ⟨some (tokNoRefresh, claimsA), TokenState.buildHeaders (some tokNoRefresh)⟩

/-- A token pair with refresh and CSRF tokens present. -/
def tokWithRefresh : Tokens := ⟨"tokA", some "refreshA", some "csrfA"⟩

/-- The token state `TokenState.build jdFix (some tokWithRefresh)`
produces. -/
def tsWithRefresh : TokenState :=
  ⟨some (tokWithRefresh, claimsA), TokenState.buildHeaders (some tokWithRefresh)⟩

/-- The unauthenticated token state. -/
def emptyTs : TokenState := ⟨none, TokenState.buildHeaders none⟩

/-- A transport answering every request with status 200 and body
`{"id": 1}`. -/
def trOk200 : Transport := fun _ => .ok ⟨200, .obj [("id", .num 1)]⟩

/-- A transport answering every request with status 199 and body
`{"id": "x"}`. -/
def tr199 : Transport := fun _ => .ok ⟨199, .obj [("id", .str "x")]⟩

/-- A transport serving the refresh endpoint with rotated auth/csrf
tokens and answering everything else with an empty 200. -/
def trRefreshFix : Transport := fun req =>
  if req.path = "api/auth/v1/refresh" then
    .ok ⟨200, .obj [("auth_token", .str "tokB"), ("csrf_token", .str "csrfB")]⟩
  else .ok ⟨200, .null⟩

/-! ### Shared lemmas -/

theorem buildHeaders_lookup_contentType (t : Option Tokens) :
    (TokenState.buildHeaders t).lookup "Content-Type" =
      some "application/json" := by
  rcases t with _ | ⟨a, _ | r, _ | c⟩ <;> rfl

theorem buildHeaders_lookup_auth (t : Option Tokens) :
    (TokenState.buildHeaders t).lookup "Authorization" =
      t.map (fun tk => "Bearer " ++ tk.auth) := by
  rcases t with _ | ⟨a, _ | r, _ | c⟩ <;> rfl

theorem buildHeaders_lookup_refresh (t : Option Tokens) :
    (TokenState.buildHeaders t).lookup "Refresh-Token" =
      t.bind Tokens.refresh := by
  rcases t with _ | ⟨a, _ | r, _ | c⟩ <;> rfl

theorem buildHeaders_lookup_csrf (t : Option Tokens) :
    (TokenState.buildHeaders t).lookup "CSRF-Token" =
      t.bind Tokens.csrf := by
  rcases t with _ | ⟨a, _ | r, _ | c⟩ <;> rfl

theorem lookup_eq_of_mem {l : List (String × Json)}
    (hnd : (l.map Prod.fst).Nodup) {kv : String × Json} (hm : kv ∈ l) :
    l.lookup kv.1 = some kv.2 := by
  induction l with
  | nil => cases hm
  | cons hd tl ih =>
    rcases List.mem_cons.mp hm with rfl | hm'
    · simp [List.lookup]
    · have hk : kv.1 ∈ tl.map Prod.fst := List.mem_map_of_mem Prod.fst hm'
      have hne : kv.1 ≠ hd.1 := by
        intro he
        rw [List.map_cons, List.nodup_cons] at hnd
        exact hnd.1 (he ▸ hk)
      have : (kv.1 == hd.1) = false := beq_eq_false_iff_ne.mpr hne
      rw [List.map_cons, List.nodup_cons] at hnd
      simp only [List.lookup, this]
      exact ih hnd.2 hm'

theorem splitAtFirst_eq_none {l : List Char} (h : ('=' : Char) ∉ l) :
    splitAtFirst '=' l = none := by
  induction l with
  | nil => rfl
  | cons c cs ih =>
    have hc : ¬ c = '=' := fun he => h (he ▸ List.mem_cons_self c cs)
    have hcs : ('=' : Char) ∉ cs := fun hm => h (List.mem_cons_of_mem c hm)
    simp [splitAtFirst, hc, ih hcs]

theorem splitAtFirst_append {a : List Char} (h : ('=' : Char) ∉ a)
    (b : List Char) : splitAtFirst '=' (a ++ '=' :: b) = some (a, b) := by
  induction a with
  | nil => simp [splitAtFirst]
  | cons c cs ih =>
    have hc : ¬ c = '=' := fun he => h (he ▸ List.mem_cons_self c cs)
    have hcs : ('=' : Char) ∉ cs := fun hm => h (List.mem_cons_of_mem c hm)
    simp [splitAtFirst, hc, ih hcs]

theorem parseFilters_error {fs : List String} {f : String} (hf : f ∈ fs)
    (hne : ('=' : Char) ∉ f.toList) (params : List (String × String)) :
    RecordApi.parseFilters fs params = .error .valueError := by
  induction fs generalizing params with
  | nil => cases hf
  | cons hd tl ih =>
    rcases List.mem_cons.mp hf with rfl | hf'
    · have hne' : ('=' : Char) ∉ f.data := hne
      simp [RecordApi.parseFilters, splitEq1, splitAtFirst_eq_none hne']
    · cases hc : splitAtFirst '=' hd.data with
      | none => simp [RecordApi.parseFilters, splitEq1, hc]
      | some ab =>
        obtain ⟨a, b⟩ := ab
        have hc2 : splitAtFirst '=' hd.toList = some (a, b) := hc
        simp only [RecordApi.parseFilters, splitEq1, hc2]
        exact ih hf' _

theorem exceptBind_ok {α β : Type} (a : α) (f : α → Except PyErr β) :
    (Except.ok a : Except PyErr α) >>= f = f a := rfl

theorem exceptBind_error {α β : Type} (e : PyErr) (f : α → Except PyErr β) :
    (Except.error e : Except PyErr α) >>= f = Except.error e := rfl

/-! ### Claim theorems -/

/-- C1 (counterexample): an authenticated state whose claims expire within
the 60-second window (`exp = 100`, `now = 1000`) but whose pair has no
refresh token produces no refresh trigger: `fetch` issues exactly one
request — the primary one, not a refresh call — and that request silently
carries the soon-to-expire `Authorization: Bearer tokA` header.  This
refutes the claim that such a state still attempts the refresh call. -/
theorem fetch_expiring_no_refresh_counterexample :
    tsNoRefresh.state = some (tokNoRefresh, claimsA) ∧
    claimsA.exp - 60 < 1000 ∧
    tokNoRefresh.refresh = none ∧
    Client.shouldRefresh 1000 tsNoRefresh = none ∧
    Client.fetch jdFix trOk200 1000 tsNoRefresh "x/y" "GET" none [] =
      (tsNoRefresh, .ok ⟨200, .obj [("id", .num 1)]⟩,
        [⟨"GET", "x/y", tsNoRefresh.headers, none, []⟩]) ∧
    tsNoRefresh.headers.lookup "Authorization" = some "Bearer tokA" :=
  ⟨rfl, by decide, rfl, rfl, rfl, rfl⟩

/-- C1 (amended): when the claims satisfy `exp - 60 < now` but the pair's
refresh token is absent, `_shouldRefresh` returns the absent refresh
token, which is indistinguishable from the no-refresh answer, so `fetch`
attempts no refresh call and issues only the primary request with the
current (soon-to-expire) headers. -/
theorem fetch_expiring_no_refresh_skips_refresh
    (jd : JwtDecode) (tr : Transport) (now : Int) (ts : TokenState)
    (tokens : Tokens) (claims : JwtToken) (path method : String)
    (data : Option Json) (qp : List (String × String))
    (hstate : ts.state = some (tokens, claims))
    (hexp : claims.exp - 60 < now)
    (hrefresh : tokens.refresh = none)
    (hpath : startsWithSlash path = false) :
    Client.fetch jd tr now ts path method data qp =
      (ts, tr ⟨method, path, ts.headers, data, qp⟩,
        [⟨method, path, ts.headers, data, qp⟩]) := by
  have h1 : Client.shouldRefresh now ts = none := by
    unfold Client.shouldRefresh
    rw [hstate]
    simp [hexp, hrefresh]
  unfold Client.fetch
  rw [h1]
  unfold ThinClient.fetch
  rw [hpath]
  simp

/-- C1 (witness): the amended theorem applied at the concrete expiring,
refresh-less fixture state. -/
theorem fetch_expiring_no_refresh_skips_refresh_witness :
    Client.fetch jdFix trOk200 1000 tsNoRefresh "x/y" "GET" none [] =
      (tsNoRefresh, trOk200 ⟨"GET", "x/y", tsNoRefresh.headers, none, []⟩,
        [⟨"GET", "x/y", tsNoRefresh.headers, none, []⟩]) :=
  fetch_expiring_no_refresh_skips_refresh jdFix trOk200 1000 tsNoRefresh
    tokNoRefresh claimsA "x/y" "GET" none [] rfl (by decide) rfl rfl

/-- C2: `TokenState.build` does not return normally when the access token
fails to decode, or decodes to a payload without the expected claims: the
exception propagates out of `build` (the source's `decoded == None` check
cannot catch it, since `jwt.decode` raises rather than returning `None`).
The spec's claimed graceful degradation to a claims-absent state does not
happen. -/
theorem build_propagates_decode_failure (jd : JwtDecode) (t : Tokens) (e : PyErr)
    (h : jd t.auth = .error e ∨
      ∃ d, jd t.auth = .ok d ∧ JwtToken.fromJson d = .error e) :
    TokenState.build jd (some t) = .error e := by
  rcases h with h | ⟨d, hd, hc⟩
  · simp only [TokenState.build, h, Except.map]
    rfl
  · simp only [TokenState.build, hd, Except.map, exceptBind_ok]
    simp [hc]

/-- C2 (witness): at the fixture decode oracle, a non-JWT access token
makes `build` raise `DecodeError`. -/
theorem build_propagates_decode_failure_witness :
    TokenState.build jdFix (some ⟨"badtok", none, none⟩) =
      .error .decodeError :=
  build_propagates_decode_failure jdFix ⟨"badtok", none, none⟩ .decodeError
    (Or.inl rfl)

/-- C3: whenever headers are built, they contain Content-Type always,
Authorization (with value `Bearer <access>`) exactly when the pair is
present, Refresh-Token exactly when the pair's refresh field is present
and CSRF-Token exactly when its csrf field is present; however the
"independent of whether the access token decodes" part fails through
`TokenState.build`, which raises on a non-decoding access token instead
of returning these headers (second conjunct). -/
theorem buildHeaders_contents :
    (∀ t : Option Tokens,
      (TokenState.buildHeaders t).lookup "Content-Type" =
          some "application/json" ∧
      (TokenState.buildHeaders t).lookup "Authorization" =
          t.map (fun tk => "Bearer " ++ tk.auth) ∧
      (TokenState.buildHeaders t).lookup "Refresh-Token" =
          t.bind Tokens.refresh ∧
      (TokenState.buildHeaders t).lookup "CSRF-Token" =
          t.bind Tokens.csrf) ∧
    TokenState.build jdFix (some ⟨"badtok", some "r", some "c"⟩) =
      .error .decodeError :=
  ⟨fun t => ⟨buildHeaders_lookup_contentType t, buildHeaders_lookup_auth t,
    buildHeaders_lookup_refresh t, buildHeaders_lookup_csrf t⟩, rfl⟩

/-- C9: whenever `TokenState.build` succeeds, `_updateTokens` succeeds
and installs exactly the built state, for every wall-clock `now` — an
already-expired `expiresAt` only sets the logged-warning flag
(`staleCondition`), it never turns the call into a failure.  (When
`build` itself raises — a non-decoding access token — the exception
propagates and nothing is installed; see the C2 theorem.) -/
theorem updateTokens_installs_despite_staleness
    (jd : JwtDecode) (now : Int) (tokens : Option Tokens) (st : TokenState)
    (h : TokenState.build jd tokens = .ok st) :
    Client.updateTokens jd now tokens =
      .ok (st, Client.staleCondition st now) := by
  unfold Client.updateTokens
  rw [h]
  rfl

/-- C9 (witness): a pair whose claims expired at 100 is still installed
at `now = 1000`, with the warning flag set. -/
theorem updateTokens_installs_despite_staleness_witness :
    Client.updateTokens jdFix 1000 (some tokNoRefresh) =
      .ok (tsNoRefresh, true) :=
  updateTokens_installs_despite_staleness jdFix 1000 (some tokNoRefresh)
    tsNoRefresh rfl

/-- C4 (counterexample): a response with status 199 — not 200 — does not
raise a `RequestError`: `create` happily parses the body into a
`RecordId`, because the source's check is `status_code > 200`, not
`status_code != 200`.  This refutes the claim that every status other
than 200, including codes below 200, is treated as failure. -/
theorem create_status_below_200_succeeds_counterexample :
    (RecordApi.create jdFix tr199 1000 "tbl" emptyTs (.obj [])).2.1 =
      .ok (.str "x") := rfl

/-- C4 (amended): create, update and delete raise `RequestError` exactly
when the response status is strictly greater than 200; on any status at
or below 200 (including informational codes below 200) `create` parses
the body into a `RecordId` while `update` and `delete` return nothing. -/
theorem create_update_delete_status_policy
    (jd : JwtDecode) (tr : Transport) (now : Int) (ts : TokenState)
    (name : String) (rid : RecordId) (record : Json)
    (respC respU respD : Response)
    (hC : (Client.fetch jd tr now ts (recordApiPrefix ++ "/" ++ name) "POST"
        (some record) []).2.1 = .ok respC)
    (hU : (Client.fetch jd tr now ts
        (recordApiPrefix ++ "/" ++ name ++ "/" ++ rid.repr) "PATCH"
        (some record) []).2.1 = .ok respU)
    (hD : (Client.fetch jd tr now ts
        (recordApiPrefix ++ "/" ++ name ++ "/" ++ rid.repr) "DELETE"
        none []).2.1 = .ok respD) :
    (RecordApi.create jd tr now name ts record).2.1 =
      (if respC.status > 200 then .error (.requestError respC.status)
       else RecordId.fromJson respC.body) ∧
    (RecordApi.update jd tr now name ts rid record).2.1 =
      (if respU.status > 200 then .error (.requestError respU.status)
       else .ok ()) ∧
    (RecordApi.delete jd tr now name ts rid).2.1 =
      (if respD.status > 200 then .error (.requestError respD.status)
       else .ok ()) := by
  refine ⟨?_, ?_, ?_⟩
  · simp only [RecordApi.create, hC]
    split <;> rfl
  · simp only [RecordApi.update, hU]
    split <;> rfl
  · simp only [RecordApi.delete, hD]
    split <;> rfl

/-- C4 (witness): the amended policy applied at a transport answering
status 200 with body `{"id": 1}`: create parses the id, update and
delete return nothing. -/
theorem create_update_delete_status_policy_witness :
    (RecordApi.create jdFix trOk200 1000 "tbl" emptyTs
        (.obj [("x", .num 1)])).2.1 = .ok (.int 1) ∧
    (RecordApi.update jdFix trOk200 1000 "tbl" emptyTs (.str "r")
        (.obj [("x", .num 1)])).2.1 = .ok () ∧
    (RecordApi.delete jdFix trOk200 1000 "tbl" emptyTs (.str "r")).2.1 =
      .ok () :=
  create_update_delete_status_policy jdFix trOk200 1000 emptyTs "tbl"
    (.str "r") (.obj [("x", .num 1)]) ⟨200, .obj [("id", .num 1)]⟩
    ⟨200, .obj [("id", .num 1)]⟩ ⟨200, .obj [("id", .num 1)]⟩ rfl rfl rfl

/-- C5: when `fetch` triggers a refresh and the refresh response carries
string `auth_token`/`csrf_token` fields whose new access token decodes,
the installed pair is `Tokens(newAuth, rt, newCsrf)` — the pre-refresh
refresh token `rt` is kept, only auth and csrf are taken from the
response — and the primary request is issued with the new state's
headers, which carry `Authorization: Bearer <newAuth>` together with the
original `Refresh-Token: rt`. -/
theorem refresh_retains_refresh_token
    (jd : JwtDecode) (tr : Transport) (now : Int) (ts : TokenState)
    (tokens : Tokens) (claims : JwtToken) (rt : String)
    (path method : String) (data : Option Json) (qp : List (String × String))
    (resp : Response) (newAuth newCsrf : String) (payload : Json)
    (newClaims : JwtToken)
    (hstate : ts.state = some (tokens, claims))
    (hexp : claims.exp - 60 < now)
    (hrt : tokens.refresh = some rt)
    (htr : tr (Client.refreshRequest ts rt) = .ok resp)
    (hauth : resp.body.get "auth_token" = .ok (.str newAuth))
    (hcsrf : resp.body.get "csrf_token" = .ok (.str newCsrf))
    (hjd : jd newAuth = .ok payload)
    (hclaims : JwtToken.fromJson payload = .ok newClaims)
    (hpath : startsWithSlash path = false) :
    Client.fetch jd tr now ts path method data qp =
      (⟨some (⟨newAuth, some rt, some newCsrf⟩, newClaims),
          TokenState.buildHeaders (some ⟨newAuth, some rt, some newCsrf⟩)⟩,
        tr ⟨method, path,
          TokenState.buildHeaders (some ⟨newAuth, some rt, some newCsrf⟩),
          data, qp⟩,
        [Client.refreshRequest ts rt,
          ⟨method, path,
            TokenState.buildHeaders (some ⟨newAuth, some rt, some newCsrf⟩),
            data, qp⟩]) ∧
    (TokenState.buildHeaders (some ⟨newAuth, some rt, some newCsrf⟩)).lookup
        "Authorization" = some ("Bearer " ++ newAuth) ∧
    (TokenState.buildHeaders (some ⟨newAuth, some rt, some newCsrf⟩)).lookup
        "Refresh-Token" = some rt := by
  refine ⟨?_, ?_, ?_⟩
  · have h1 : Client.shouldRefresh now ts = some rt := by
      unfold Client.shouldRefresh
      rw [hstate]
      simp [hexp, hrt]
    have h2 : Client.refreshTokensImpl jd tr ts rt =
        (.ok ⟨some (⟨newAuth, some rt, some newCsrf⟩, newClaims),
            TokenState.buildHeaders (some ⟨newAuth, some rt, some newCsrf⟩)⟩,
          [Client.refreshRequest ts rt]) := by
      unfold Client.refreshTokensImpl
      rw [htr]
      simp only [hauth, hcsrf, exceptBind_ok, Json.asStr]
      simp only [TokenState.build, hjd, Except.map, exceptBind_ok, hclaims]
      rfl
    unfold Client.fetch
    rw [h1]
    simp only [h2, ThinClient.fetch, hpath]
    simp
  · simpa using buildHeaders_lookup_auth (some ⟨newAuth, some rt, some newCsrf⟩)
  · simpa using buildHeaders_lookup_refresh (some ⟨newAuth, some rt, some newCsrf⟩)

/-- C5 (witness): the theorem applied at the fixture state whose claims
expire at 100, with a transport whose refresh endpoint answers
`{"auth_token": "tokB", "csrf_token": "csrfB"}`. -/
theorem refresh_retains_refresh_token_witness :
    Client.fetch jdFix trRefreshFix 1000 tsWithRefresh "x/y" "GET" none [] =
      (⟨some (⟨"tokB", some "refreshA", some "csrfB"⟩, claimsB),
          TokenState.buildHeaders (some ⟨"tokB", some "refreshA", some "csrfB"⟩)⟩,
        trRefreshFix ⟨"GET", "x/y",
          TokenState.buildHeaders (some ⟨"tokB", some "refreshA", some "csrfB"⟩),
          none, []⟩,
        [Client.refreshRequest tsWithRefresh "refreshA",
          ⟨"GET", "x/y",
            TokenState.buildHeaders (some ⟨"tokB", some "refreshA", some "csrfB"⟩),
            none, []⟩]) ∧
    (TokenState.buildHeaders
        (some ⟨"tokB", some "refreshA", some "csrfB"⟩)).lookup "Authorization" =
      some ("Bearer " ++ "tokB") ∧
    (TokenState.buildHeaders
        (some ⟨"tokB", some "refreshA", some "csrfB"⟩)).lookup "Refresh-Token" =
      some "refreshA" :=
  refresh_retains_refresh_token jdFix trRefreshFix 1000 tsWithRefresh
    tokWithRefresh claimsA "refreshA" "x/y" "GET" none []
    ⟨200, .obj [("auth_token", .str "tokB"), ("csrf_token", .str "csrfB")]⟩
    "tokB" "csrfB" payloadB claimsB rfl (by decide) rfl rfl rfl rfl rfl rfl rfl

/-- C6: `logout` never raises and always ends unauthenticated: for every
decode oracle, transport (including one that raises on every request),
time and starting state, the `except: pass` swallows any failure of the
logout HTTP call, `_updateTokens(None)` succeeds on every exit path, and
the resulting state is the empty one, on which `tokens()` returns
`None`. -/
theorem logout_always_clears_tokens
    (jd : JwtDecode) (tr : Transport) (now : Int) (ts : TokenState) :
    (Client.logout jd tr now ts).1 = .ok (emptyTs, false) ∧
    Client.tokens emptyTs = none :=
  ⟨rfl, rfl⟩

theorem isStrVal_eq_true {o : Option Json} (h : isStrVal o = true) :
    ∃ s, o = some (.str s) := by
  cases o with
  | none => exact absurd h (by simp [isStrVal])
  | some v =>
    cases v with
    | str s => exact ⟨s, rfl⟩
    | num n => exact absurd h (by simp [isStrVal])
    | bool b => exact absurd h (by simp [isStrVal])
    | null => exact absurd h (by simp [isStrVal])
    | arr xs => exact absurd h (by simp [isStrVal])
    | obj fs => exact absurd h (by simp [isStrVal])

/-- C7: for every well-formed token JSON object `j` — keys exactly
`auth_token`, `refresh_token`, `csrf_token` in any order with string
values — decoding succeeds and re-encoding yields a dict equal to `j`
under Python dict equality (`Json.pyEq`). -/
theorem tokens_json_round_trip (j : Json) (h : tokensWellFormed j = true) :
    ∃ t, Tokens.fromJson j = .ok t ∧ Json.pyEq (Tokens.toJson t) j = true := by
  cases j with
  | str s => exact absurd h (by simp [tokensWellFormed])
  | num n => exact absurd h (by simp [tokensWellFormed])
  | bool b => exact absurd h (by simp [tokensWellFormed])
  | null => exact absurd h (by simp [tokensWellFormed])
  | arr xs => exact absurd h (by simp [tokensWellFormed])
  | obj fields =>
    simp only [tokensWellFormed, Bool.and_eq_true, decide_eq_true_eq] at h
    obtain ⟨⟨⟨hperm, h1⟩, h2⟩, h3⟩ := h
    obtain ⟨a, ha⟩ := isStrVal_eq_true h1
    obtain ⟨r, hr⟩ := isStrVal_eq_true h2
    obtain ⟨c, hc⟩ := isStrVal_eq_true h3
    have hga : Json.get (.obj fields) "auth_token" = .ok (.str a) := by
      simp [Json.get, ha]
    have hgr : Json.get (.obj fields) "refresh_token" = .ok (.str r) := by
      simp [Json.get, hr]
    have hgc : Json.get (.obj fields) "csrf_token" = .ok (.str c) := by
      simp [Json.get, hc]
    refine ⟨⟨a, some r, some c⟩, ?_, ?_⟩
    · simp only [Tokens.fromJson, hga, hgr, hgc, exceptBind_ok, Json.asStr]
      rfl
    · have hnd : (fields.map Prod.fst).Nodup := hperm.nodup_iff.mpr (by decide)
      have hlen : fields.length = 3 := by
        have hl := hperm.length_eq
        simpa using hl
      simp only [Tokens.toJson, Json.ofOptStr, Json.pyEq]
      rw [Bool.and_eq_true, Bool.and_eq_true]
      refine ⟨⟨?_, ?_⟩, ?_⟩
      · simp [hlen]
      · simp [List.all_cons, List.all_nil, ha, hr, hc, Json.beq]
      · rw [List.all_eq_true]
        intro kv hkv
        have hmem : kv.1 ∈ fields.map Prod.fst := List.mem_map_of_mem Prod.fst hkv
        have hk3 : kv.1 ∈ ["auth_token", "refresh_token", "csrf_token"] :=
          hperm.mem_iff.mp hmem
        have hlk := lookup_eq_of_mem hnd hkv
        simp only [List.mem_cons, List.not_mem_nil, or_false] at hk3
        rcases hk3 with hk | hk | hk
        · rw [hk] at hlk
          have hv : kv.2 = .str a := by
            have := hlk.symm.trans ha
            exact Option.some.injEq _ _ ▸ this.symm ▸ rfl
          rw [hk, hv]
          simp [List.lookup, Json.beq]
        · rw [hk] at hlk
          have hv : kv.2 = .str r := by
            have := hlk.symm.trans hr
            exact Option.some.injEq _ _ ▸ this.symm ▸ rfl
          rw [hk, hv]
          simp [List.lookup, Json.beq]
        · rw [hk] at hlk
          have hv : kv.2 = .str c := by
            have := hlk.symm.trans hc
            exact Option.some.injEq _ _ ▸ this.symm ▸ rfl
          rw [hk, hv]
          simp [List.lookup, Json.beq]

/-- The round-trip witness object: the three required fields with string
values, deliberately in a scrambled key order. -/
def jScrambled : Json :=
  .obj [("csrf_token", .str "c1"), ("auth_token", .str "a1"),
        ("refresh_token", .str "r1")]

/-- C7 (witness): the round trip evaluated on the scrambled concrete
object. -/
theorem tokens_json_round_trip_witness :
    tokensWellFormed jScrambled = true ∧
    ∃ t, Tokens.fromJson jScrambled = .ok t ∧
      Json.pyEq (Tokens.toJson t) jScrambled = true :=
  ⟨by decide, tokens_json_round_trip jScrambled (by decide)⟩

/-- C8: (1) whenever some filter string contains no `=`, `list` fails
before any HTTP request is issued: the tuple unpacking of
`filter.split("=", 1)` raises (the taxonomy's FilterFormatError) and the
request trace is empty; (2) a filter string containing `=` is split at
its first `=` into the `name[op]` key and the value. -/
theorem list_filter_fail_fast :
    (∀ (jd : JwtDecode) (tr : Transport) (now : Int) (name : String)
      (ts : TokenState) (ord : Option (List String)) (fs : List String)
      (cur : Option String) (lim : Option Int) (f : String),
      f ∈ fs → ('=' : Char) ∉ f.toList →
      RecordApi.list jd tr now name ts ord (some fs) cur lim =
        (ts, .error .valueError, [])) ∧
    (∀ pre post : String, ('=' : Char) ∉ pre.toList →
      splitEq1 (pre ++ "=" ++ post) = [pre, post]) := by
  constructor
  · intro jd tr now name ts ord fs cur lim f hf hne
    simp only [RecordApi.list]
    rw [parseFilters_error hf hne]
  · intro pre post h
    have h' : ('=' : Char) ∉ pre.data := h
    unfold splitEq1
    rw [show (pre ++ "=" ++ post).toList = pre.data ++ '=' :: post.data by
      simp [String.data_append, show ("=" : String).data = ['='] from rfl]]
    rw [splitAtFirst_append h']

/-- C8 (witness): a malformed filter in second position fails with no
request issued, and a concrete well-formed filter splits at its `=`. -/
theorem list_filter_fail_fast_witness :
    RecordApi.list jdFix trOk200 1000 "tbl" emptyTs none
      (some ["status=active", "malformed"]) none none =
      (emptyTs, .error .valueError, []) ∧
    splitEq1 ("status" ++ "=" ++ "active") = ["status", "active"] :=
  ⟨list_filter_fail_fast.1 jdFix trOk200 1000 "tbl" emptyTs none
      ["status=active", "malformed"] none none "malformed"
      (by decide) (by decide),
    list_filter_fail_fast.2 "status" "active" (by decide)⟩

/-- C10 (counterexample): with `refresh_token` absent (not null), the
failure raised by `Tokens.fromJson` is a `KeyError` from the dict access,
not the claimed `AssertionError` — the assert is only reached when the
field is present. -/
theorem fromJson_missing_refresh_keyError_counterexample :
    Tokens.fromJson (.obj [("auth_token", .str "a"), ("csrf_token", .str "c")]) =
      .error (.keyError "refresh_token") ∧
    PyErr.keyError "refresh_token" ≠ PyErr.assertionError :=
  ⟨rfl, by decide⟩

/-- C10 (amended): a JSON object in which `refresh_token` or `csrf_token`
is absent or null never decodes to a pair: `Tokens.fromJson` fails — with
a `KeyError` when the field is absent and an `AssertionError` when it is
null — even though the `Tokens` type itself allows these fields to be
absent. -/
theorem fromJson_requires_refresh_and_csrf (fields : List (String × Json))
    (h : fields.lookup "refresh_token" = none ∨
      fields.lookup "refresh_token" = some .null ∨
      fields.lookup "csrf_token" = none ∨
      fields.lookup "csrf_token" = some .null) :
    exceptIsOk (Tokens.fromJson (.obj fields)) = false := by
  cases ha : fields.lookup "auth_token" with
  | none => simp [Tokens.fromJson, Json.get, ha, exceptIsOk, exceptBind_ok, exceptBind_error]
  | some v =>
    cases v with
    | str a =>
      rcases h with h | h | h | h
      · simp [Tokens.fromJson, Json.get, ha, h, Json.asStr, exceptIsOk, exceptBind_ok, exceptBind_error]
      · simp [Tokens.fromJson, Json.get, ha, h, Json.asStr, exceptIsOk, exceptBind_ok, exceptBind_error]
      · cases hr : fields.lookup "refresh_token" with
        | none => simp [Tokens.fromJson, Json.get, ha, hr, Json.asStr, exceptIsOk, exceptBind_ok, exceptBind_error]
        | some w =>
          cases w with
          | str r => simp [Tokens.fromJson, Json.get, ha, hr, h, Json.asStr, exceptIsOk, exceptBind_ok, exceptBind_error]
          | num n => simp [Tokens.fromJson, Json.get, ha, hr, Json.asStr, exceptIsOk, exceptBind_ok, exceptBind_error]
          | bool b => simp [Tokens.fromJson, Json.get, ha, hr, Json.asStr, exceptIsOk, exceptBind_ok, exceptBind_error]
          | null => simp [Tokens.fromJson, Json.get, ha, hr, Json.asStr, exceptIsOk, exceptBind_ok, exceptBind_error]
          | arr xs => simp [Tokens.fromJson, Json.get, ha, hr, Json.asStr, exceptIsOk, exceptBind_ok, exceptBind_error]
          | obj fs => simp [Tokens.fromJson, Json.get, ha, hr, Json.asStr, exceptIsOk, exceptBind_ok, exceptBind_error]
      · cases hr : fields.lookup "refresh_token" with
        | none => simp [Tokens.fromJson, Json.get, ha, hr, Json.asStr, exceptIsOk, exceptBind_ok, exceptBind_error]
        | some w =>
          cases w with
          | str r => simp [Tokens.fromJson, Json.get, ha, hr, h, Json.asStr, exceptIsOk, exceptBind_ok, exceptBind_error]
          | num n => simp [Tokens.fromJson, Json.get, ha, hr, Json.asStr, exceptIsOk, exceptBind_ok, exceptBind_error]
          | bool b => simp [Tokens.fromJson, Json.get, ha, hr, Json.asStr, exceptIsOk, exceptBind_ok, exceptBind_error]
          | null => simp [Tokens.fromJson, Json.get, ha, hr, Json.asStr, exceptIsOk, exceptBind_ok, exceptBind_error]
          | arr xs => simp [Tokens.fromJson, Json.get, ha, hr, Json.asStr, exceptIsOk, exceptBind_ok, exceptBind_error]
          | obj fs => simp [Tokens.fromJson, Json.get, ha, hr, Json.asStr, exceptIsOk, exceptBind_ok, exceptBind_error]
    | num n => simp [Tokens.fromJson, Json.get, ha, Json.asStr, exceptIsOk, exceptBind_ok, exceptBind_error]
    | bool b => simp [Tokens.fromJson, Json.get, ha, Json.asStr, exceptIsOk, exceptBind_ok, exceptBind_error]
    | null => simp [Tokens.fromJson, Json.get, ha, Json.asStr, exceptIsOk, exceptBind_ok, exceptBind_error]
    | arr xs => simp [Tokens.fromJson, Json.get, ha, Json.asStr, exceptIsOk, exceptBind_ok, exceptBind_error]
    | obj fs => simp [Tokens.fromJson, Json.get, ha, Json.asStr, exceptIsOk, exceptBind_ok, exceptBind_error]

/-- C10 (witness): the amended theorem applied to the object missing its
`refresh_token` field. -/
theorem fromJson_requires_refresh_and_csrf_witness :
    exceptIsOk (Tokens.fromJson
      (.obj [("auth_token", .str "a"), ("csrf_token", .str "c")])) = false :=
  fromJson_requires_refresh_and_csrf
    [("auth_token", .str "a"), ("csrf_token", .str "c")] (Or.inl rfl)
